import Mathlib

/-!
Shallow embedding of the Aeroterra dashboard repository
(`src/utils/map_utils.py`, `src/components/maps.py`,
`src/components/dashboard.py`).

Conventions of the embedding:
* Python optional dict arguments (`Optional[Dict]`) become `Option` of a
  structure; a field read with `dict.get(key)` / `dict.get(key, 'N/A')`
  becomes an `Option ℚ` field (`none` models an absent or non-numeric
  reading, exactly what the `isinstance(x, (int, float))` guards test);
  `dict.get(key, default)` with a numeric default becomes `Option.getD`.
* Numeric values are rationals (the source only adds, multiplies and
  compares decimal literals, which is exact over ℚ).
* Calls into streamlit are modelled as the ordered list of emitted
  `OutElem` values; calls into folium as the ordered list of `MapElem`
  values accumulated on a `FoliumMap`.  Popup HTML bodies are display
  formatting and are elided; the numeric reading a popup interpolates is
  carried in the element's `value` field, and classification results
  (color / status strings) are carried verbatim.
* `datetime.now()` becomes an explicit `now : ℤ` argument (days since the
  1970-01-01 epoch), threaded to the one function that reads the clock.
-/

/-- One element added to a folium map: tile layers, the layer control,
markers (color, icon, tooltip, central numeric reading) and circle
markers, and the heat-map layer. -/
inductive MapElem where
  | tileLayer (name : String)
  | layerControl
  | marker (lat lon : ℚ) (color : String) (icon : String) (tooltip : String) (value : Option ℚ)
  | circleMarker (lat lon radius : ℚ) (color : String) (fillColor : String) (tooltip : String) (value : Option ℚ)
  | heatLayer (points : List (ℚ × ℚ × ℚ))
deriving DecidableEq

/-- A folium map: center, zoom, base tile set, and the elements added to
it in execution order. -/
structure FoliumMap where
  lat : ℚ
  lon : ℚ
  zoom : ℕ
  baseTiles : String
  elems : List MapElem
deriving DecidableEq

/-- The weather reading bundle (`weather_data` dict): each field is a
numeric reading or absent. -/
structure WeatherBundle where
  location : Option (ℚ × ℚ)
  temperature_2m : Option ℚ
  apparent_temperature : Option ℚ
  relative_humidity_2m : Option ℚ
  wind_speed_10m : Option ℚ
deriving DecidableEq

/-- The air-quality reading bundle (`air_quality_data` dict). -/
structure AirQualityBundle where
  location : Option (ℚ × ℚ)
  pm2_5 : Option ℚ
  pm10 : Option ℚ
  nitrogen_dioxide : Option ℚ
deriving DecidableEq

/-- The satellite / derived-metrics bundle (`nasa_data`): no dashboard
body in the source reads any field of it, so it is an opaque token. -/
def NasaBundle : Type := Unit

namespace MapUtils

/-- `MapUtils.create_base_map` (`src/utils/map_utils.py` lines 10-37):
base OpenStreetMap tiles, two extra tile layers, and the layer control. -/
def create_base_map (lat lon : ℚ) (zoom : ℕ := 11) : FoliumMap :=
  { lat := lat, lon := lon, zoom := zoom, baseTiles := "OpenStreetMap",
    elems := [.tileLayer "Satellite", .tileLayer "Light Map", .layerControl] }

/-- The inline PM2.5 color chain of `add_weather_markers`
(`src/utils/map_utils.py` lines 68-76): thresholds 12 and 35, giving
(color, quality). -/
def stationPmStatus (pm25 : ℚ) : String × String :=
  if pm25 ≤ 12 then ("green", "Good")
  else if pm25 ≤ 35 then ("orange", "Moderate")
  else ("red", "Unhealthy")

/-- `MapUtils.add_weather_markers` (`src/utils/map_utils.py` lines 40-95):
a weather marker when the weather bundle has a location, and an
air-quality marker colored by `stationPmStatus` of
`air_quality_data.get('pm2_5', 0)` when the air-quality bundle has a
location. -/
def add_weather_markers (m : FoliumMap) (weather_data : Option WeatherBundle)
    (air_quality_data : Option AirQualityBundle) : FoliumMap :=
  let m1 : FoliumMap :=
    match weather_data with
    | none => m
    | some wb =>
      match wb.location with
      | none => m
      | some loc =>
        { m with elems := m.elems ++
            [.marker loc.1 loc.2 "blue" "thermometer-half" "Weather Station" wb.temperature_2m] }
  match air_quality_data with
  | none => m1
  | some ab =>
    match ab.location with
    | none => m1
    | some loc =>
      let pm25 := ab.pm2_5.getD 0
      let cq := stationPmStatus pm25
      { m1 with elems := m1.elems ++
          [.marker loc.1 loc.2 cq.1 "wind" ("Air Quality: " ++ cq.2) (some pm25)] }

/-- One heat-island hotspot record (`heat_data["hotspots"]`). -/
structure HeatSpot where
  lat : ℚ
  lon : ℚ
  intensity : ℚ
deriving DecidableEq

/-- One cooling-zone record (`heat_data["cooling_zones"]`). -/
structure CoolingZone where
  lat : ℚ
  lon : ℚ
  cooling : ℚ
deriving DecidableEq

/-- The optional `heat_data` argument of `add_heat_island_layer`. -/
structure HeatData where
  hotspots : List HeatSpot
  cooling_zones : List CoolingZone
deriving DecidableEq

/-- `MapUtils.add_heat_island_layer` (`src/utils/map_utils.py` lines
98-154): hardcoded hotspots and cooling zones when no data is passed, a
heat-map layer when the hotspot list is nonempty, then circle markers
for hotspots and cooling zones. -/
def add_heat_island_layer (m : FoliumMap) (heat_data : Option HeatData := none) : FoliumMap :=
  let heat_spots : List (ℚ × ℚ × ℚ) :=
    match heat_data with
    | none =>
      [(12.845, 77.661, 4.2), (12.970, 77.750, 3.8),
       (12.935, 77.610, 3.1), (12.904, 77.600, 2.9)]
    | some hd => hd.hotspots.map (fun s => (s.lat, s.lon, s.intensity))
  let cooling_zones : List (ℚ × ℚ × ℚ) :=
    match heat_data with
    | none =>
      [(12.976, 77.590, 2.1), (12.950, 77.584, 1.8), (12.976, 77.625, 1.3)]
    | some hd => hd.cooling_zones.map (fun z => (z.lat, z.lon, |z.cooling|))
  let e1 : List MapElem := if heat_spots = [] then [] else [.heatLayer heat_spots]
  let e2 : List MapElem := heat_spots.map (fun s =>
    .circleMarker s.1 s.2.1 10 "red" "red" "Heat Island Hotspot" (some s.2.2))
  let e3 : List MapElem := cooling_zones.map (fun z =>
    .circleMarker z.1 z.2.1 8 "blue" "lightblue" "Cooling Zone" (some z.2.2))
  { m with elems := m.elems ++ e1 ++ e2 ++ e3 }

/-- The inline lake-health color chain of `add_water_bodies`
(`src/utils/map_utils.py` lines 169-177): thresholds 70 and 50, giving
(color, status). -/
def lakeStatus (health : ℚ) : String × String :=
  if health ≥ 70 then ("green", "Good")
  else if health ≥ 50 then ("orange", "Fair")
  else ("red", "Poor")

/-- The hardcoded lake table of `add_water_bodies` (name, lat, lon,
health score). -/
def lakes : List (String × ℚ × ℚ × ℚ) :=
  [("Bellandur Lake", 12.926, 77.675, 45),
   ("Ulsoor Lake", 12.976, 77.625, 78),
   ("Sankey Tank", 12.991, 77.567, 82),
   ("Hebbal Lake", 13.036, 77.597, 67),
   ("Madivala Lake", 12.925, 77.623, 59)]

/-- `MapUtils.add_water_bodies` (`src/utils/map_utils.py` lines 157-194):
one marker per lake, colored by `lakeStatus` of its health score. -/
def add_water_bodies (m : FoliumMap) : FoliumMap :=
  { m with elems := m.elems ++ lakes.map (fun lk =>
      .marker lk.2.1 lk.2.2.1 (lakeStatus lk.2.2.2).1 "tint" lk.1 (some lk.2.2.2)) }

/-- The hardcoded development-area table of `add_urban_growth_markers`
(name, lat, lon, type). -/
def development_areas : List (String × ℚ × ℚ × String) :=
  [("Electronic City Phase 2", 12.835, 77.675, "IT Hub"),
   ("Whitefield Extension", 12.975, 77.760, "Residential"),
   ("Sarjapur Road Corridor", 12.905, 77.700, "Mixed Development"),
   ("North Bengaluru", 13.050, 77.580, "Residential")]

/-- The marker-color lookup of `add_urban_growth_markers` with its
`.get(..., "gray")` default. -/
def growthIconColor (t : String) : String :=
  if t = "IT Hub" then "purple"
  else if t = "Residential" then "blue"
  else if t = "Mixed Development" then "orange"
  else "gray"

/-- `MapUtils.add_urban_growth_markers` (`src/utils/map_utils.py` lines
197-228). -/
def add_urban_growth_markers (m : FoliumMap) : FoliumMap :=
  { m with elems := m.elems ++ development_areas.map (fun a =>
      .marker a.2.1 a.2.2.1 (growthIconColor a.2.2.2) "building" a.1 none) }

/-- The inline PM2.5 color chain of `add_air_quality_zones`
(`src/utils/map_utils.py` lines 246-254): thresholds 25 and 50, giving
(color, status). -/
def aqZoneStatus (pm25 : ℚ) : String × String :=
  if pm25 ≤ 25 then ("green", "Good")
  else if pm25 ≤ 50 then ("orange", "Moderate")
  else ("red", "Unhealthy")

/-- The hardcoded station table of `add_air_quality_zones` (name, lat,
lon, pm25). -/
def stations : List (String × ℚ × ℚ × ℚ) :=
  [("City Railway Station", 12.977, 77.571, 45),
   ("BTM Layout", 12.912, 77.610, 52),
   ("Whitefield", 12.970, 77.750, 38),
   ("Electronic City", 12.845, 77.661, 67),
   ("Jayanagar", 12.926, 77.583, 41)]

/-- `MapUtils.add_air_quality_zones` (`src/utils/map_utils.py` lines
231-273): one circle marker per station, colored by `aqZoneStatus`; the
`air_quality_data` argument is accepted and never read, as in the
source. -/
def add_air_quality_zones (m : FoliumMap)
    (_air_quality_data : Option AirQualityBundle := none) : FoliumMap :=
  { m with elems := m.elems ++ stations.map (fun s =>
      .circleMarker s.2.1 s.2.2.1 12 (aqZoneStatus s.2.2.2).1 (aqZoneStatus s.2.2.2).1
        (s.1 ++ ": " ++ (aqZoneStatus s.2.2.2).2) (some s.2.2.2)) }

end MapUtils

/-- The four citizen-facing metric slots the citizens dashboard writes
(`src/components/dashboard.py` lines 37-60). -/
inductive MetricField where
  | temperature
  | feelsLike
  | humidity
  | pm25
deriving DecidableEq

/-- A dataframe cell: the sample tables mix strings, integers and
decimals. -/
inductive Cell where
  | s (v : String)
  | i (v : ℤ)
  | q (v : ℚ)
deriving DecidableEq

/-- One streamlit output element, in emission order.  Chart and table
constructors carry the data handed to the plotting library; styling
keywords are elided.  `metricValue` models the citizens-dashboard lines
that write one named reading (absent readings are shown as N/A, carried
as `none`). -/
inductive OutElem where
  | subheader (t : String)
  | info (t : String)
  | success (t : String)
  | warning (t : String)
  | error (t : String)
  | write (t : String)
  | metric (label value : String) (delta : Option String)
  | metricQ (label : String) (value : ℚ) (unit : String) (delta : Option String)
  | metricValue (f : MetricField) (v : Option ℚ)
  | dataframe (cols : List (String × List Cell))
  | styledDataframe (cols : List (String × List Cell)) (styles : List String)
  | lineChart (title : String) (x : List ℤ) (series : List (String × List ℚ))
  | barChart (title : String) (cats : List String) (series : List (String × List ℚ))
  | pieChart (title : String) (names : List String) (values : List ℚ)
deriving DecidableEq

/-- The hardcoded landmark table of `add_city_landmarks`
(`src/components/maps.py` lines 105-111). -/
def landmarks : List (String × ℚ × ℚ × String) :=
  [("Vidhana Soudha", 12.979, 77.590, "government"),
   ("Bangalore Palace", 12.998, 77.592, "heritage"),
   ("UB City Mall", 12.972, 77.595, "commercial"),
   ("Kempegowda Airport", 13.199, 77.706, "transport"),
   ("Majestic Bus Station", 12.977, 77.571, "transport")]

/-- The landmark icon lookup with its `.get(..., gray/info-sign)`
default (`src/components/maps.py` lines 113-121). -/
def landmarkIcon (t : String) : String × String :=
  if t = "government" then ("purple", "university")
  else if t = "heritage" then ("darkred", "monument")
  else if t = "commercial" then ("orange", "shopping-cart")
  else if t = "transport" then ("blue", "plane")
  else ("gray", "info-sign")

/-- `add_city_landmarks` (`src/components/maps.py` lines 102-128). -/
def add_city_landmarks (m : FoliumMap) : FoliumMap :=
  { m with elems := m.elems ++ landmarks.map (fun l =>
      .marker l.2.1 l.2.2.1 (landmarkIcon l.2.2.2).1 (landmarkIcon l.2.2.2).2 l.1 none) }

/-- The hardcoded temperature-station table of `add_temperature_stations`
(name, lat, lon, temp). -/
def temperature_stations : List (String × ℚ × ℚ × ℚ) :=
  [("HAL Airport", 12.960, 77.644, 28.5),
   ("IISC Campus", 13.021, 77.566, 26.8),
   ("Electronic City", 12.845, 77.661, 32.1),
   ("Whitefield", 12.970, 77.750, 31.4)]

/-- The inline temperature color chain of `add_temperature_stations`
(`src/components/maps.py` lines 142-147). -/
def tempStationColor (t : ℚ) : String :=
  if t > 30 then "red" else if t > 28 then "orange" else "green"

/-- `add_temperature_stations` (`src/components/maps.py` lines 130-164). -/
def add_temperature_stations (m : FoliumMap) : FoliumMap :=
  { m with elems := m.elems ++ temperature_stations.map (fun s =>
      .circleMarker s.2.1 s.2.2.1 8 (tempStationColor s.2.2.2) (tempStationColor s.2.2.2)
        s.1 (some s.2.2.2)) }

/-- The hardcoded monitoring-point table of `add_water_quality_stations`
(name, lat, lon, quality label). -/
def monitoring_points : List (String × ℚ × ℚ × String) :=
  [("Bellandur Inlet", 12.930, 77.670, "Poor"),
   ("Bellandur Outlet", 12.922, 77.680, "Very Poor"),
   ("Ulsoor Lake Center", 12.976, 77.625, "Good"),
   ("Sankey Tank Inlet", 12.993, 77.565, "Excellent"),
   ("Hebbal Lake", 13.036, 77.597, "Fair")]

/-- The quality-color lookup of `add_water_quality_stations` with its
`.get(..., "gray")` default. -/
def qualityColor (q : String) : String :=
  if q = "Excellent" then "darkgreen"
  else if q = "Good" then "green"
  else if q = "Fair" then "orange"
  else if q = "Poor" then "red"
  else if q = "Very Poor" then "darkred"
  else "gray"

/-- `add_water_quality_stations` (`src/components/maps.py` lines 166-200). -/
def add_water_quality_stations (m : FoliumMap) : FoliumMap :=
  { m with elems := m.elems ++ monitoring_points.map (fun p =>
      .marker p.2.1 p.2.2.1 (qualityColor p.2.2.2) "tint"
        ("Water Quality: " ++ p.2.2.2) none) }

/-- The hardcoded pollution-source table of `add_pollution_sources`
(name, lat, lon, type). -/
def pollution_sources : List (String × ℚ × ℚ × String) :=
  [("Industrial Area - Peenya", 13.030, 77.520, "Industrial"),
   ("Traffic Junction - Silk Board", 12.918, 77.623, "Traffic"),
   ("Construction Zone - Outer Ring Road", 12.935, 77.692, "Construction"),
   ("Waste Processing - Mavallipura", 13.181, 77.486, "Waste")]

/-- The type-color lookup of `add_pollution_sources` with its
`.get(..., "gray")` default. -/
def pollutionColor (t : String) : String :=
  if t = "Industrial" then "purple"
  else if t = "Traffic" then "red"
  else if t = "Construction" then "orange"
  else if t = "Waste" then "brown"
  else "gray"

/-- `add_pollution_sources` (`src/components/maps.py` lines 202-234). -/
def add_pollution_sources (m : FoliumMap) : FoliumMap :=
  { m with elems := m.elems ++ pollution_sources.map (fun s =>
      .marker s.2.1 s.2.2.1 (pollutionColor s.2.2.2) "warning-sign"
        (s.2.2.2 ++ " Pollution Source") none) }

/-- The hardcoded development-zone table of `add_development_zones`
(name, lat, lon, status). -/
def development_zones : List (String × ℚ × ℚ × String) :=
  [("Aerospace Park", 13.140, 77.560, "Planned"),
   ("Peripheral Ring Road", 12.850, 77.450, "Under Construction"),
   ("New Metro Extension", 12.920, 77.720, "Approved"),
   ("IT Corridor Extension", 12.800, 77.700, "Proposed")]

/-- The status-color lookup of `add_development_zones` with its
`.get(..., "gray")` default. -/
def devStatusColor (s : String) : String :=
  if s = "Planned" then "blue"
  else if s = "Under Construction" then "orange"
  else if s = "Approved" then "green"
  else if s = "Proposed" then "purple"
  else "gray"

/-- `add_development_zones` (`src/components/maps.py` lines 236-272). -/
def add_development_zones (m : FoliumMap) : FoliumMap :=
  { m with elems := m.elems ++ development_zones.map (fun z =>
      .circleMarker z.2.1 z.2.2.1 15 (devStatusColor z.2.2.2) (devStatusColor z.2.2.2)
        (z.1 ++ " (" ++ z.2.2.2 ++ ")") none) }

/-- `render_overview_map` (`src/components/maps.py` lines 33-48): weather
and air-quality markers, water bodies, air-quality zones (no data
argument, as in the source), then landmarks; it emits no streamlit
note. -/
def render_overview_map (m : FoliumMap) (weather_data : Option WeatherBundle)
    (air_quality_data : Option AirQualityBundle) : FoliumMap × List OutElem :=
  (add_city_landmarks
    (MapUtils.add_air_quality_zones
      (MapUtils.add_water_bodies
        (MapUtils.add_weather_markers m weather_data air_quality_data))), [])

/-- `render_heat_island_map` (`src/components/maps.py` lines 50-61). -/
def render_heat_island_map (m : FoliumMap) : FoliumMap × List OutElem :=
  (add_temperature_stations (MapUtils.add_heat_island_layer m),
   [.info "🌡️ **Heat Island Map**: Red areas show urban heat islands, blue areas show cooling zones."])

/-- `render_water_monitoring_map` (`src/components/maps.py` lines 63-74). -/
def render_water_monitoring_map (m : FoliumMap) : FoliumMap × List OutElem :=
  (add_water_quality_stations (MapUtils.add_water_bodies m),
   [.info "💧 **Water Monitoring**: Click on lakes to see health status and quality metrics."])

/-- `render_air_quality_map` (`src/components/maps.py` lines 76-87). -/
def render_air_quality_map (m : FoliumMap) : FoliumMap × List OutElem :=
  (add_pollution_sources (MapUtils.add_air_quality_zones m),
   [.info "🌬️ **Air Quality Map**: Green circles show good air quality, red circles show poor air quality."])

/-- `render_urban_growth_map` (`src/components/maps.py` lines 89-100). -/
def render_urban_growth_map (m : FoliumMap) : FoliumMap × List OutElem :=
  (add_development_zones (MapUtils.add_urban_growth_markers m),
   [.info "🏗️ **Urban Growth Map**: Purple markers show IT hubs, blue markers show residential areas."])

/-- `render_interactive_map` (`src/components/maps.py` lines 7-31): build
the base map, dispatch on `map_type` (an unmatched type adds nothing),
and display the result.  The returned pair is the displayed map and the
streamlit notes emitted alongside it; the post-display click handling
reads the interactive widget state and is outside the output model. -/
def render_interactive_map (lat lon : ℚ) (weather_data : Option WeatherBundle)
    (air_quality_data : Option AirQualityBundle) (map_type : String) :
    FoliumMap × List OutElem :=
  let m := MapUtils.create_base_map lat lon 11
  if map_type = "overview" then render_overview_map m weather_data air_quality_data
  else if map_type = "heat_island" then render_heat_island_map m
  else if map_type = "water_monitoring" then render_water_monitoring_map m
  else if map_type = "air_quality" then render_air_quality_map m
  else if map_type = "urban_growth" then render_urban_growth_map m
  else (m, [])

/-- The advisory messages of the citizens dashboard temperature chain
(`src/components/dashboard.py` lines 46-52). -/
def veryHotMsg : String := "🌡️ Very hot day! Stay hydrated and avoid outdoor activities during peak hours."

/-- The cool-day advisory message. -/
def coolMsg : String := "🧥 Cool day! You might want to carry a light jacket."

/-- The pleasant-weather advisory message. -/
def pleasantMsg : String := "😊 Pleasant weather for outdoor activities!"

/-- The inline temperature advisory chain of `render_citizens_dashboard`
(`src/components/dashboard.py` lines 46-52), in source order: first
`temp > 35`, then `temp < 15`, else pleasant. -/
def tempAdvisory (temp : ℚ) : OutElem :=
  if temp > 35 then .warning veryHotMsg
  else if temp < 15 then .info coolMsg
  else .success pleasantMsg

/-- The good-air advisory message (`src/components/dashboard.py` line 63). -/
def goodAirMsg : String := "😷 Good air quality - safe for outdoor activities!"

/-- The moderate-air advisory message. -/
def moderateAirMsg : String := "😷 Moderate air quality - sensitive individuals should limit outdoor activities."

/-- The poor-air advisory message. -/
def poorAirMsg : String := "😷 Poor air quality - wear masks outdoors and limit exposure!"

/-- The inline PM2.5 advisory chain of `render_citizens_dashboard`
(`src/components/dashboard.py` lines 62-67): thresholds 25 and 50. -/
def airQualityAdvisory (pm25 : ℚ) : OutElem :=
  if pm25 ≤ 25 then .success goodAirMsg
  else if pm25 ≤ 50 then .warning moderateAirMsg
  else .error poorAirMsg

/-- Column 1 of the citizens dashboard (`src/components/dashboard.py`
lines 34-52): the three weather readings (shown as N/A when absent) and,
only when the temperature reading is numeric, its advisory. -/
def citizensWeatherCol (weather_data : Option WeatherBundle) : List OutElem :=
  .subheader "🌤️ Today\x27s Weather" ::
  match weather_data with
  | none => []
  | some wb =>
    [.metricValue .temperature wb.temperature_2m,
     .metricValue .feelsLike wb.apparent_temperature,
     .metricValue .humidity wb.relative_humidity_2m] ++
    (match wb.temperature_2m with
     | some t => [tempAdvisory t]
     | none => [])

/-- Column 2 of the citizens dashboard (`src/components/dashboard.py`
lines 54-67): the PM2.5 reading and its advisory are written only when
the reading is numeric. -/
def citizensAirCol (air_quality_data : Option AirQualityBundle) : List OutElem :=
  .subheader "💨 Air Quality" ::
  match air_quality_data with
  | none => []
  | some ab =>
    match ab.pm2_5 with
    | some p => [.metricValue .pm25 (some p), airQualityAdvisory p]
    | none => []

/-- The health-recommendation block (`src/components/dashboard.py` lines
72-92).  The guards `if temp and temp > 35` and `if pm25 and pm25 > 25`
keep the Python truthiness test on the value itself. -/
def citizensRecommendations (weather_data : Option WeatherBundle)
    (air_quality_data : Option AirQualityBundle) : List OutElem :=
  let recs : List String :=
    (match weather_data with
     | some wb =>
       match wb.temperature_2m with
       | some t =>
         if t ≠ 0 ∧ t > 35 then
           ["Drink plenty of water throughout the day",
            "Wear light-colored, loose-fitting clothes",
            "Avoid outdoor activities between 11 AM - 4 PM"]
         else []
       | none => []
     | none => []) ++
    (match air_quality_data with
     | some ab =>
       match ab.pm2_5 with
       | some p =>
         if p ≠ 0 ∧ p > 25 then
           ["Wear N95 masks when outdoors",
            "Keep windows closed during high pollution hours",
            "Consider indoor exercises instead of outdoor jogging"]
         else []
       | none => []
     | none => [])
  if recs = [] then [.write "• Great conditions today! Enjoy outdoor activities safely."]
  else recs.map (fun r => .write ("• " ++ r))

/-- `render_citizens_dashboard` (`src/components/dashboard.py` lines
26-92). -/
def render_citizens_dashboard (weather_data : Option WeatherBundle)
    (air_quality_data : Option AirQualityBundle) : List OutElem :=
  [.info "🏠 **For Citizens**: Daily life climate information and health advisories"] ++
  citizensWeatherCol weather_data ++
  citizensAirCol air_quality_data ++
  [.subheader "🏥 Health Recommendations"] ++
  citizensRecommendations weather_data air_quality_data

/-- `render_bbmp_dashboard` (`src/components/dashboard.py` lines 94-137):
its body reads none of its three bundle arguments. -/
def render_bbmp_dashboard (_weather_data : Option WeatherBundle)
    (_air_quality_data : Option AirQualityBundle)
    (_nasa_data : Option NasaBundle) : List OutElem :=
  [.info "🏛️ **For BBMP**: Urban planning insights and city development guidance",
   .subheader "🌡️ Urban Heat Island Monitoring",
   .metric "Heat Island Intensity" "3.2°C" (some "↑ 0.5°C from last month"),
   .metric "Critical Heat Zones" "4 areas" (some "↑ 1 new zone"),
   .metric "Green Cover Impact" "-2.1°C" (some "In parks & tree-lined areas"),
   .subheader "🏗️ Development Pressure Indicators",
   .dataframe
     [("Zone", [.s "Electronic City", .s "Whitefield", .s "Sarjapur Road", .s "North Bengaluru", .s "Outer Ring Road"]),
      ("Development Intensity", [.i 85, .i 78, .i 92, .i 45, .i 67]),
      ("Heat Risk", [.s "Very High", .s "High", .s "Very High", .s "Low", .s "Medium"]),
      ("Green Space %", [.i 12, .i 18, .i 8, .i 35, .i 22])],
   .subheader "📋 Planning Recommendations",
   .write "**Immediate Actions:**",
   .write "• Mandate 20% green space in new developments in Electronic City",
   .write "• Implement cool roof policies in high heat zones",
   .write "• Create green corridors connecting existing parks",
   .write "**Long-term Strategy:**",
   .write "• Develop satellite city centers to reduce central density",
   .write "• Increase tree canopy coverage to 30% city-wide",
   .write "• Implement building height restrictions in heat island zones"]

/-- The lake health scores of the water-board table
(`src/components/dashboard.py` line 149). -/
def lakeHealthScores : List ℚ := [45, 78, 82, 67, 59]

/-- `color_health_score` (`src/components/dashboard.py` lines 158-164):
the cell background color applied to the Health Score column. -/
def color_health_score (val : ℚ) : String :=
  if val ≥ 70 then "background-color: #90EE90"
  else if val ≥ 50 then "background-color: #FFD700"
  else "background-color: #FFB6C1"

/-- The water-board lakes table (`src/components/dashboard.py` lines
147-153). -/
def lakesTable : List (String × List Cell) :=
  [("Lake", [.s "Bellandur", .s "Ulsoor", .s "Sankey Tank", .s "Hebbal", .s "Madivala"]),
   ("Health Score", lakeHealthScores.map Cell.q),
   ("Water Quality", [.s "Critical", .s "Good", .s "Excellent", .s "Fair", .s "Poor"]),
   ("Algal Bloom Risk", [.s "High", .s "Low", .s "Very Low", .s "Medium", .s "High"]),
   ("Action Required", [.s "Immediate", .s "Monitor", .s "Maintain", .s "Improve", .s "Urgent"])]

/-- The x-axis of the water-board trend chart: the model of
`pd.date_range(start=datetime.now()-timedelta(days=90), end=datetime.now(), freq='W')`
at day granularity.  `now` is a day number since the 1970-01-01 epoch
(a Thursday), so the weekly frequency anchors on Sundays, the days
congruent to 3 modulo 7; the range keeps those within the last 90 days. -/
def trendDates (now : ℤ) : List ℤ :=
  ((List.range 91).map (fun i => now - 90 + (i : ℤ))).filter (fun d => d % 7 = 3)

/-- The Bellandur trend series (`src/components/dashboard.py` line 174):
`[45 + (i % 5) - 2 for i in range(len(dates))]`. -/
def bellandurTrend (now : ℤ) : List ℚ :=
  (List.range (trendDates now).length).map (fun i => (45 : ℚ) + (i % 5 : ℕ) - 2)

/-- The Ulsoor trend series (`src/components/dashboard.py` line 175):
`[78 + (i % 3) - 1 for i in range(len(dates))]`. -/
def ulsoorTrend (now : ℤ) : List ℚ :=
  (List.range (trendDates now).length).map (fun i => (78 : ℚ) + (i % 3 : ℕ) - 1)

/-- `render_water_board_dashboard` (`src/components/dashboard.py` lines
139-189): its body reads neither bundle argument, but it reads the
clock (`datetime.now()`, line 173) to lay out the 90-day trend chart;
the clock is the explicit `now` argument here. -/
def render_water_board_dashboard (_weather_data : Option WeatherBundle)
    (_nasa_data : Option NasaBundle) (now : ℤ) : List OutElem :=
  [.info "💧 **For BWSSB**: Water resource management and lake health monitoring",
   .subheader "🏞️ Lake Health Status",
   .styledDataframe lakesTable (lakeHealthScores.map color_health_score),
   .subheader "📈 Water Quality Trends",
   .lineChart "Lake Health Trends (90 Days)" (trendDates now)
     [("Bellandur Lake", bellandurTrend now), ("Ulsoor Lake", ulsoorTrend now)],
   .subheader "🚨 Priority Action Items",
   .error "**Critical**: Bellandur Lake requires immediate intervention - sewage treatment upgrade needed",
   .warning "**Monitor**: Madivala Lake showing declining trends - investigate pollution sources",
   .success "**Success**: Sankey Tank maintenance program showing positive results"]

/-- Column 1 of the electricity dashboard (`src/components/dashboard.py`
lines 199-209): the current temperature defaults to 25 via
`weather_data.get('temperature_2m', 25)`, and the cooling-demand metric
classifies that (possibly defaulted) value. -/
def bescomCol1 (weather_data : Option WeatherBundle) : List OutElem :=
  match weather_data with
  | none => []
  | some wb =>
    let temp := wb.temperature_2m.getD 25
    [.metricQ "Current Temperature" temp "°C" none] ++
    (if temp > 30 then
       [.metricQ "Cooling Demand" (min 100 ((temp - 25) * 20)) "%" (some "↑ High")]
     else
       [.metric "Cooling Demand" "Low" (some "→ Stable")])

/-- The fixed hourly base demand curve (`src/components/dashboard.py`
lines 224-226). -/
def base_demand : List ℚ :=
  [1800, 1650, 1500, 1400, 1350, 1400, 1600, 1900, 2200, 2400,
   2600, 2750, 2850, 2900, 2850, 2700, 2500, 2300, 2100, 2000,
   1950, 1900, 1850, 1800]

/-- The temperature factor (`src/components/dashboard.py` line 231):
`max(1.0, 1.0 + (temp - 25) * 0.02) if temp else 1.0` — the Python
truthiness test on `temp` is kept as the `temp ≠ 0` guard. -/
def temp_factor (temp : ℚ) : ℚ :=
  if temp ≠ 0 then max 1 (1 + (temp - 25) * (2 / 100)) else 1

/-- The adjusted 24-hour demand forecast (`src/components/dashboard.py`
lines 229-234): scaled by `temp_factor` when the temperature reading is
numeric, otherwise the base curve. -/
def adjusted_demand (weather_data : Option WeatherBundle) : List ℚ :=
  match weather_data with
  | some wb =>
    match wb.temperature_2m with
    | some t => base_demand.map (fun d => d * temp_factor t)
    | none => base_demand
  | none => base_demand

/-- The chart x-axis `hours = list(range(24))`. -/
def hours24 : List ℤ := (List.range 24).map (fun i => (i : ℤ))

/-- `render_electricity_dashboard` (`src/components/dashboard.py` lines
191-252). -/
def render_electricity_dashboard (weather_data : Option WeatherBundle) : List OutElem :=
  [.info "⚡ **For BESCOM**: Power demand forecasting and grid management"] ++
  bescomCol1 weather_data ++
  [.metric "Predicted Peak Load" "2,850 MW" (some "↑ 12% vs yesterday"),
   .metric "Grid Stress Level" "Moderate" (some "Monitor closely"),
   .subheader "📊 24-Hour Demand Forecast",
   .lineChart "24-Hour Power Demand Forecast" hours24 [("Demand (MW)", adjusted_demand weather_data)],
   .subheader "⚡ Grid Management Recommendations",
   .write "**Immediate Actions:**",
   .write "• Prepare backup power sources for afternoon peak (2-4 PM)",
   .write "• Issue power conservation advisory to industrial users",
   .write "• Monitor transformer temperatures in high-demand areas"]

/-- `render_parks_dashboard` (`src/components/dashboard.py` lines
254-312): its body reads neither bundle argument. -/
def render_parks_dashboard (_weather_data : Option WeatherBundle)
    (_nasa_data : Option NasaBundle) : List OutElem :=
  [.info "🌳 **For Parks Department**: Green space management and urban forestry",
   .metric "City Green Cover" "18.2%" (some "↓ 1.2% vs last year"),
   .metric "Tree Canopy" "12.8%" (some "↑ 0.3% improvement"),
   .metric "Park Visitor Count" "15,420" (some "↑ 8% this week"),
   .metric "Tree Health Index" "76/100" (some "→ Stable"),
   .subheader "🏞️ Park Performance Dashboard",
   .dataframe
     [("Park Name", [.s "Cubbon Park", .s "Lalbagh", .s "Bannerghatta", .s "Freedom Park", .s "Jayamahal Park"]),
      ("Area (acres)", [.q 300, .q 240, .q 104, .q 2.5, .q 4.2]),
      ("Visitor Count", [.i 5420, .i 3890, .i 2150, .i 890, .i 340]),
      ("Tree Health", [.i 85, .i 82, .i 78, .i 71, .i 69]),
      ("Cooling Effect", [.s "-2.1°C", .s "-1.8°C", .s "-1.5°C", .s "-0.8°C", .s "-0.6°C"])],
   .subheader "🌱 Tree Plantation Progress",
   .barChart "Quarterly Tree Plantation Progress"
     ["Q1 2024", "Q2 2024", "Q3 2024", "Q4 2024 (Target)"]
     [("Trees Planted", [2840, 3150, 2960, 3500]), ("Target", [3000, 3200, 3100, 3500])],
   .pieChart "Tree Species Distribution"
     ["Banyan", "Neem", "Gulmohar", "Rain Tree", "Tamarind", "Others"]
     [890, 1240, 780, 650, 420, 980]]

/-- `render_research_dashboard` (`src/components/dashboard.py` lines
314-370): its body reads none of its three bundle arguments. -/
def render_research_dashboard (_weather_data : Option WeatherBundle)
    (_air_quality_data : Option AirQualityBundle)
    (_nasa_data : Option NasaBundle) : List OutElem :=
  [.info "🔬 **For Researchers**: Comprehensive climate data analysis and trends",
   .subheader "📊 Data Quality Assessment",
   .metric "Weather Data Quality" "98.5%" (some "↑ High reliability"),
   .metric "Satellite Data Coverage" "94.2%" (some "→ Good coverage"),
   .metric "Air Quality Sensors" "12 active" (some "↑ 2 new stations"),
   .subheader "🔍 Key Research Findings",
   .write "**Climate Patterns:**",
   .write "• Urban heat island intensity has increased 15% over 5 years",
   .write "• Green spaces provide 2-3°C cooling benefit consistently",
   .write "• Air quality shows seasonal variation with monsoon improvement",
   .write "**Correlations Discovered:**",
   .write "• Strong negative correlation (-0.78) between green cover and surface temperature",
   .write "• PM2.5 levels increase 40% during construction season",
   .write "• Lake health directly impacts local humidity levels",
   .subheader "📈 Advanced Analytics",
   .write "**Correlation Matrix:**",
   .dataframe
     [("Metric", [.s "Temperature", .s "Humidity", .s "PM2.5", .s "Green Cover", .s "Lake Health"]),
      ("Temperature", [.q 1.0, .q (-0.45), .q 0.23, .q (-0.78), .q (-0.34)]),
      ("Humidity", [.q (-0.45), .q 1.0, .q (-0.12), .q 0.56, .q 0.67]),
      ("PM2.5", [.q 0.23, .q (-0.12), .q 1.0, .q (-0.45), .q (-0.23)]),
      ("Green Cover", [.q (-0.78), .q 0.56, .q (-0.45), .q 1.0, .q 0.45]),
      ("Lake Health", [.q (-0.34), .q 0.67, .q (-0.23), .q 0.45, .q 1.0])],
   .subheader "🎯 Research Recommendations",
   .write "**Priority Research Areas:**",
   .write "• Quantify economic impact of urban heat islands",
   .write "• Study effectiveness of different cooling interventions",
   .write "• Develop predictive models for air quality forecasting",
   .write "• Assess climate change adaptation strategies"]

/-- `render_dashboard` (`src/components/dashboard.py` lines 8-24): the
stakeholder dispatch.  The `now` clock argument is threaded only to the
water-board branch, the one body that calls `datetime.now()`. -/
def render_dashboard (stakeholder : String) (weather_data : Option WeatherBundle)
    (air_quality_data : Option AirQualityBundle) (nasa_data : Option NasaBundle)
    (now : ℤ) : List OutElem :=
  .subheader ("Dashboard for " ++ stakeholder) ::
  (if stakeholder = "Citizens" then
     render_citizens_dashboard weather_data air_quality_data
   else if stakeholder = "BBMP (City Planning)" then
     render_bbmp_dashboard weather_data air_quality_data nasa_data
   else if stakeholder = "BWSSB (Water Board)" then
     render_water_board_dashboard weather_data nasa_data now
   else if stakeholder = "BESCOM (Electricity)" then
     render_electricity_dashboard weather_data
   else if stakeholder = "Parks Department" then
     render_parks_dashboard weather_data nasa_data
   else if stakeholder = "Researchers" then
     render_research_dashboard weather_data air_quality_data nasa_data
   else [])

/-- Modelled from the spec: the application shell that binds each
stakeholder identity to the map layer it surfaces is not among the
repository files under src/; the spec's StakeholderProfile table binds
the citizens view to the plain overview layer and no other. -/
def stakeholderMapLayer (stakeholder : String) : String :=
  if stakeholder = "Citizens" then "overview"
  else if stakeholder = "BBMP (City Planning)" then "heat_island"
  else if stakeholder = "BWSSB (Water Board)" then "water_monitoring"
  else if stakeholder = "BESCOM (Electricity)" then "overview"
  else if stakeholder = "Parks Department" then "heat_island"
  else if stakeholder = "Researchers" then "air_quality"
  else "overview"

/-- The metric slots a rendered view surfaces, in order. -/
def metricsSurfaced (out : List OutElem) : List MetricField :=
  out.filterMap (fun e =>
    match e with
    | .metricValue f _ => some f
    | _ => none)

/-- C2: for every numeric temperature value supplied to the citizens
dashboard, the advisory classification is Cool for t < 15, Pleasant for
15 ≤ t ≤ 35 and VeryHot for t > 35, with both boundary values 15 and 35
classified Pleasant. -/
theorem c2_temperature_classification : ∀ t : ℚ,
    (tempAdvisory t = .info coolMsg ↔ t < 15) ∧
    (tempAdvisory t = .success pleasantMsg ↔ 15 ≤ t ∧ t ≤ 35) ∧
    (tempAdvisory t = .warning veryHotMsg ↔ 35 < t) ∧
    tempAdvisory 15 = .success pleasantMsg ∧
    tempAdvisory 35 = .success pleasantMsg := by
  intro t
  refine ⟨?_, ?_, ?_, by decide, by decide⟩ <;>
    · unfold tempAdvisory
      split_ifs with h1 h2 <;> simp <;>
        first
        | linarith
        | (intro h3; linarith)
        | (constructor <;> linarith)

/-- C3: under the general PM2.5 rule — the citizens air-quality advisory
and the air-quality station zone markers — p ≤ 25 is Good, 25 < p ≤ 50
Moderate, p > 50 Poor/Unhealthy; in particular 25 → Good, 26 → Moderate,
50 → Moderate, 51 → Poor/Unhealthy. -/
theorem c3_pm25_general_classification : ∀ p : ℚ,
    (MapUtils.aqZoneStatus p = ("green", "Good") ↔ p ≤ 25) ∧
    (MapUtils.aqZoneStatus p = ("orange", "Moderate") ↔ 25 < p ∧ p ≤ 50) ∧
    (MapUtils.aqZoneStatus p = ("red", "Unhealthy") ↔ 50 < p) ∧
    (airQualityAdvisory p = .success goodAirMsg ↔ p ≤ 25) ∧
    (airQualityAdvisory p = .warning moderateAirMsg ↔ 25 < p ∧ p ≤ 50) ∧
    (airQualityAdvisory p = .error poorAirMsg ↔ 50 < p) ∧
    MapUtils.aqZoneStatus 25 = ("green", "Good") ∧
    MapUtils.aqZoneStatus 26 = ("orange", "Moderate") ∧
    MapUtils.aqZoneStatus 50 = ("orange", "Moderate") ∧
    MapUtils.aqZoneStatus 51 = ("red", "Unhealthy") ∧
    airQualityAdvisory 25 = .success goodAirMsg ∧
    airQualityAdvisory 26 = .warning moderateAirMsg ∧
    airQualityAdvisory 50 = .warning moderateAirMsg ∧
    airQualityAdvisory 51 = .error poorAirMsg := by
  intro p
  refine ⟨?_, ?_, ?_, ?_, ?_, ?_, by decide, by decide, by decide, by decide,
    by decide, by decide, by decide, by decide⟩ <;>
    · simp only [MapUtils.aqZoneStatus, airQualityAdvisory]
      split_ifs with h1 h2 <;> simp <;>
        first
        | linarith
        | (intro h3; linarith)
        | (constructor <;> linarith)

/-- C4: the lake-health classification shared by the water-board table
coloring and the lake map markers: h ≥ 70 Good (green map marker, light
green cell), 50 ≤ h < 70 Fair (orange marker, gold cell), h < 50 Poor
(red marker, pink-red cell); 45 is Poor, 78 is Good, and the boundary
value 50 is Fair, as witnessed on the hardcoded score column. -/
theorem c4_lake_health_classification : ∀ h : ℚ,
    (MapUtils.lakeStatus h = ("green", "Good") ↔ 70 ≤ h) ∧
    (MapUtils.lakeStatus h = ("orange", "Fair") ↔ 50 ≤ h ∧ h < 70) ∧
    (MapUtils.lakeStatus h = ("red", "Poor") ↔ h < 50) ∧
    (color_health_score h = "background-color: #90EE90" ↔ 70 ≤ h) ∧
    (color_health_score h = "background-color: #FFD700" ↔ 50 ≤ h ∧ h < 70) ∧
    (color_health_score h = "background-color: #FFB6C1" ↔ h < 50) ∧
    MapUtils.lakeStatus 45 = ("red", "Poor") ∧
    MapUtils.lakeStatus 78 = ("green", "Good") ∧
    MapUtils.lakeStatus 50 = ("orange", "Fair") ∧
    color_health_score 45 = "background-color: #FFB6C1" ∧
    color_health_score 78 = "background-color: #90EE90" ∧
    color_health_score 50 = "background-color: #FFD700" ∧
    lakeHealthScores.map color_health_score =
      ["background-color: #FFB6C1", "background-color: #90EE90",
       "background-color: #90EE90", "background-color: #FFD700",
       "background-color: #FFD700"] := by
  intro h
  refine ⟨?_, ?_, ?_, ?_, ?_, ?_, by decide, by decide, by decide,
    by decide, by decide, by decide, by decide⟩ <;>
    · simp only [MapUtils.lakeStatus, color_health_score]
      split_ifs with h1 h2 <;> simp <;>
        first
        | linarith
        | (intro h3; linarith)
        | (constructor <;> linarith)

/-- C5: the station-specific PM2.5 rule of the weather/air-quality map
marker: p ≤ 12 Good (green), 12 < p ≤ 35 Moderate (orange), p > 35
Unhealthy (red); at p = 20 it disagrees with the general ≤25/≤50 rule,
so the two schemes coexist in the program without either replacing the
other. -/
theorem c5_station_pm25_classification : ∀ p : ℚ,
    (MapUtils.stationPmStatus p = ("green", "Good") ↔ p ≤ 12) ∧
    (MapUtils.stationPmStatus p = ("orange", "Moderate") ↔ 12 < p ∧ p ≤ 35) ∧
    (MapUtils.stationPmStatus p = ("red", "Unhealthy") ↔ 35 < p) ∧
    MapUtils.stationPmStatus 20 = ("orange", "Moderate") ∧
    MapUtils.aqZoneStatus 20 = ("green", "Good") ∧
    MapUtils.stationPmStatus 20 ≠ MapUtils.aqZoneStatus 20 := by
  intro p
  refine ⟨?_, ?_, ?_, by decide, by decide, by decide⟩ <;>
    · simp only [MapUtils.stationPmStatus]
      split_ifs with h1 h2 <;> simp <;>
        first
        | linarith
        | (intro h3; linarith)
        | (constructor <;> linarith)

/-- C6 counterexample: at the boundary value PM2.5 = 25 the general
classifier assigns Good, the milder of the two adjacent categories, not
the stricter Moderate the claim requires. -/
theorem c6_counterexample :
    MapUtils.aqZoneStatus 25 = ("green", "Good") ∧
    MapUtils.aqZoneStatus 25 ≠ ("orange", "Moderate") := by
  decide

/-- C6 amended: at every category boundary the classifiers assign the
milder (better) of the two adjacent categories: temperature 15 and 35
are Pleasant, PM2.5 25 is Good and 50 is Moderate under the general
rule, 12 is Good and 35 is Moderate under the station rule, and lake
health 50 is Fair and 70 is Good in both the marker and the table
coloring. -/
theorem c6_boundaries_take_milder_category :
    tempAdvisory 15 = .success pleasantMsg ∧
    tempAdvisory 35 = .success pleasantMsg ∧
    MapUtils.aqZoneStatus 25 = ("green", "Good") ∧
    MapUtils.aqZoneStatus 50 = ("orange", "Moderate") ∧
    airQualityAdvisory 25 = .success goodAirMsg ∧
    airQualityAdvisory 50 = .warning moderateAirMsg ∧
    MapUtils.stationPmStatus 12 = ("green", "Good") ∧
    MapUtils.stationPmStatus 35 = ("orange", "Moderate") ∧
    MapUtils.lakeStatus 50 = ("orange", "Fair") ∧
    MapUtils.lakeStatus 70 = ("green", "Good") ∧
    color_health_score 50 = "background-color: #FFD700" ∧
    color_health_score 70 = "background-color: #90EE90" := by
  decide

/-- C1 counterexample: an air-quality bundle with a location but no
PM2.5 reading does not get the no-data outcome — `add_weather_markers`
substitutes the default 0 via `air_quality_data.get('pm2_5', 0)` and
classifies it Good, emitting a classified marker. -/
theorem c1_counterexample :
    (MapUtils.add_weather_markers (MapUtils.create_base_map 13 78 11) none
        (some ⟨some (13, 78), none, none, none⟩)).elems =
      [.tileLayer "Satellite", .tileLayer "Light Map", .layerControl,
       .marker 13 78 "green" "wind" "Air Quality: Good" (some 0)] := by
  decide

/-- C1 amended: the citizens-dashboard consumers do treat a missing
reading as no data (no advisory and no substituted value is emitted),
but the two other cited consumers substitute defaults: the map
air-quality marker classifies a missing PM2.5 as 0 (Good), and the
electricity cooling-demand metric classifies a missing temperature as
25 (displayed as the current temperature and classed Low). -/
theorem c1_missing_reading_policy :
    ∀ (m : FoliumMap) (ab : AirQualityBundle) (loc : ℚ × ℚ) (wb : WeatherBundle),
      ab.location = some loc → ab.pm2_5 = none → wb.temperature_2m = none →
      ((MapUtils.add_weather_markers m none (some ab)).elems =
        m.elems ++ [.marker loc.1 loc.2 "green" "wind" "Air Quality: Good" (some 0)]) ∧
      bescomCol1 (some wb) =
        [.metricQ "Current Temperature" 25 "°C" none,
         .metric "Cooling Demand" "Low" (some "→ Stable")] ∧
      citizensAirCol (some ab) = [.subheader "💨 Air Quality"] ∧
      citizensWeatherCol (some wb) =
        [.subheader "🌤️ Today\x27s Weather",
         .metricValue .temperature none,
         .metricValue .feelsLike wb.apparent_temperature,
         .metricValue .humidity wb.relative_humidity_2m] := by
  intro m ab loc wb hloc hpm htemp
  refine ⟨?_, ?_, ?_, ?_⟩
  · simp [MapUtils.add_weather_markers, hloc, hpm, MapUtils.stationPmStatus]
  · norm_num [bescomCol1, htemp]
  · simp [citizensAirCol, hpm]
  · simp [citizensWeatherCol, htemp]

/-- C1 witness: the amended theorem applied at a concrete bundle whose
temperature reading is absent. -/
theorem c1_missing_reading_policy_witness :
    bescomCol1 (some ⟨none, none, none, none, none⟩) =
      [.metricQ "Current Temperature" 25 "°C" none,
       .metric "Cooling Demand" "Low" (some "→ Stable")] :=
  (c1_missing_reading_policy (MapUtils.create_base_map 13 78 11)
    ⟨some (13, 78), none, none, none⟩ (13, 78)
    ⟨none, none, none, none, none⟩ rfl rfl rfl).2.1

/-- C7 counterexample: the water-board view read at two different clock
days (epoch days 3 and 10) with identical bundle inputs yields
different output — the 90-day trend chart x-axis follows the clock. -/
theorem c7_counterexample :
    render_dashboard "BWSSB (Water Board)" none none none 3 ≠
      render_dashboard "BWSSB (Water Board)" none none none 10 := by
  decide

/-- C7 amended: every view rendering is a deterministic function of its
arguments and the clock, and for every stakeholder other than the water
board the output is clock-independent; the water-board view reads the
current date for its trend chart, so its output varies with the clock
even on identical inputs. -/
theorem c7_clock_independent_except_water_board :
    ∀ (s : String) (w : Option WeatherBundle) (a : Option AirQualityBundle)
      (n : Option NasaBundle) (t₁ t₂ : ℤ),
      s ≠ "BWSSB (Water Board)" →
      render_dashboard s w a n t₁ = render_dashboard s w a n t₂ := by
  intro s w a n t₁ t₂ hs
  unfold render_dashboard
  split_ifs <;> rfl

/-- C7 witness: the clock-independence theorem applied to the citizens
view at two distinct days. -/
theorem c7_clock_independent_witness :
    render_dashboard "Citizens" none none none 0 =
      render_dashboard "Citizens" none none none 1 :=
  c7_clock_independent_except_water_board "Citizens" none none none 0 1 (by decide)

/-- Surfacing distributes over concatenated output. -/
theorem metricsSurfaced_append (l1 l2 : List OutElem) :
    metricsSurfaced (l1 ++ l2) = metricsSurfaced l1 ++ metricsSurfaced l2 :=
  List.filterMap_append l1 l2 _

/-- A list of plain write lines surfaces no metric slot. -/
theorem metricsSurfaced_map_write (rs : List String) :
    metricsSurfaced (rs.map (fun r => OutElem.write ("• " ++ r))) = [] := by
  induction rs with
  | nil => rfl
  | cons x xs ih => simp [metricsSurfaced, ih]

/-- A block of plain recommendation lines surfaces no metric slot. -/
theorem metricsSurfaced_writes (rs : List String) :
    metricsSurfaced
      (if rs = [] then
        [OutElem.write "• Great conditions today! Enjoy outdoor activities safely."]
      else rs.map (fun r => OutElem.write ("• " ++ r))) = [] := by
  split_ifs with h
  · rfl
  · exact metricsSurfaced_map_write rs

/-- The health-recommendation block surfaces no metric slot: it emits
only plain text lines. -/
theorem metricsSurfaced_recommendations (w : Option WeatherBundle)
    (a : Option AirQualityBundle) :
    metricsSurfaced (citizensRecommendations w a) = [] :=
  metricsSurfaced_writes _

/-- The weather column surfaces temperature, feels-like and humidity,
with or without the advisory line. -/
theorem metricsSurfaced_weatherCol (wb : WeatherBundle) :
    metricsSurfaced (citizensWeatherCol (some wb)) =
      [.temperature, .feelsLike, .humidity] := by
  obtain ⟨l, tm, ap, rh, ws⟩ := wb
  rcases tm with _ | t
  · rfl
  · simp only [citizensWeatherCol, tempAdvisory]
    split_ifs <;> rfl

/-- C8 counterexample: with both bundles supplied but the PM2.5 reading
absent from the air-quality bundle, the citizens view surfaces only
temperature, feels-like and humidity — not the claimed exact set of
four metrics. -/
theorem c8_counterexample :
    metricsSurfaced (render_citizens_dashboard
        (some ⟨some (13, 78), some 28, some 30, some 65, some 10⟩)
        (some ⟨some (13, 78), none, some 80, some 40⟩)) =
      [.temperature, .feelsLike, .humidity] ∧
    ([MetricField.temperature, .feelsLike, .humidity] ≠
      [.temperature, .feelsLike, .humidity, .pm25]) := by
  decide

/-- C8 amended: when both bundles are supplied the citizens view
surfaces at most the four citizen-relevant metric slots and nothing
else: exactly temperature, feels-like, humidity and PM2.5 when the
PM2.5 reading is numeric, and only the first three when it is absent;
the stakeholder profile binds the citizens view to the overview map
layer alone. -/
theorem c8_citizens_view_metrics :
    ∀ (wb : WeatherBundle) (ab : AirQualityBundle),
      (∀ p : ℚ, ab.pm2_5 = some p →
        metricsSurfaced (render_citizens_dashboard (some wb) (some ab)) =
          [.temperature, .feelsLike, .humidity, .pm25]) ∧
      (ab.pm2_5 = none →
        metricsSurfaced (render_citizens_dashboard (some wb) (some ab)) =
          [.temperature, .feelsLike, .humidity]) ∧
      stakeholderMapLayer "Citizens" = "overview" := by
  intro wb ab
  have hbase :
      metricsSurfaced (render_citizens_dashboard (some wb) (some ab)) =
        metricsSurfaced (citizensWeatherCol (some wb)) ++
        metricsSurfaced (citizensAirCol (some ab)) ++
        metricsSurfaced (citizensRecommendations (some wb) (some ab)) := by
    simp [render_citizens_dashboard, metricsSurfaced_append, metricsSurfaced]
  refine ⟨?_, ?_, rfl⟩
  · intro p hp
    rw [hbase, metricsSurfaced_weatherCol, metricsSurfaced_recommendations]
    have hair : metricsSurfaced (citizensAirCol (some ab)) = [.pm25] := by
      simp only [citizensAirCol, hp, airQualityAdvisory]
      split_ifs <;> rfl
    rw [hair]
    rfl
  · intro hp
    rw [hbase, metricsSurfaced_weatherCol, metricsSurfaced_recommendations]
    have hair : metricsSurfaced (citizensAirCol (some ab)) = [] := by
      simp only [citizensAirCol, hp]
      rfl
    rw [hair]
    rfl

/-- The Python truthiness guard in the factor is vacuous: at temperature
0 both branches give 1, so the factor is the plain clamped formula. -/
theorem temp_factor_eq (t : ℚ) :
    temp_factor t = max 1 (1 + (t - 25) * (2 / 100)) := by
  unfold temp_factor
  split_ifs with h
  · rfl
  · push_neg at h
    subst h
    rw [max_eq_left (by norm_num)]

/-- The temperature factor never falls below 1. -/
theorem one_le_temp_factor (t : ℚ) : 1 ≤ temp_factor t := by
  rw [temp_factor_eq]
  exact le_max_left _ _

/-- The temperature factor is monotone in the temperature. -/
theorem temp_factor_mono {t t' : ℚ} (h : t ≤ t') :
    temp_factor t ≤ temp_factor t' := by
  rw [temp_factor_eq, temp_factor_eq]
  refine max_le_max le_rfl ?_
  nlinarith

/-- Reading an index out of a pointwise-scaled list. -/
theorem getD_map_mul (l : List ℚ) (c : ℚ) (i : ℕ) :
    (l.map (fun d => d * c)).getD i 0 = l.getD i 0 * c := by
  induction l generalizing i with
  | nil => simp [List.getD]
  | cons x xs ih =>
    cases i with
    | zero => simp [List.getD]
    | succ n => simpa [List.getD] using ih n

/-- Reading an index of a list of nonnegative entries. -/
theorem getD_nonneg (l : List ℚ) (hl : ∀ x ∈ l, 0 ≤ x) (i : ℕ) :
    0 ≤ l.getD i 0 := by
  induction l generalizing i with
  | nil => simp [List.getD]
  | cons x xs ih =>
    cases i with
    | zero => exact hl x (List.mem_cons_self x xs)
    | succ n => simpa [List.getD] using ih (fun y hy => hl y (List.mem_cons_of_mem x hy)) n

/-- C9: for every numeric temperature reading t, the adjusted 24-hour
forecast is the base demand curve scaled pointwise by
max(1, 1 + (t − 25)·0.02); hence every adjusted hourly value is at
least the base value, and the forecast is pointwise monotone in t. -/
theorem c9_demand_forecast_scaling :
    ∀ (wb : WeatherBundle) (t : ℚ), wb.temperature_2m = some t →
      adjusted_demand (some wb) =
        base_demand.map (fun d => d * max 1 (1 + (t - 25) * (2 / 100))) ∧
      (∀ i : ℕ, base_demand.getD i 0 ≤ (adjusted_demand (some wb)).getD i 0) ∧
      (∀ (wb' : WeatherBundle) (t' : ℚ), wb'.temperature_2m = some t' → t ≤ t' →
        ∀ i : ℕ, (adjusted_demand (some wb)).getD i 0 ≤ (adjusted_demand (some wb')).getD i 0) := by
  intro wb t ht
  have hnn : ∀ i : ℕ, 0 ≤ base_demand.getD i 0 :=
    getD_nonneg base_demand (by decide)
  have hadj : adjusted_demand (some wb) = base_demand.map (fun d => d * temp_factor t) := by
    simp [adjusted_demand, ht]
  refine ⟨?_, ?_, ?_⟩
  · rw [hadj]
    simp only [temp_factor_eq]
  · intro i
    rw [hadj, getD_map_mul]
    calc base_demand.getD i 0 = base_demand.getD i 0 * 1 := (mul_one _).symm
      _ ≤ base_demand.getD i 0 * temp_factor t :=
        mul_le_mul_of_nonneg_left (one_le_temp_factor t) (hnn i)
  · intro wb' t' ht' htt i
    have hadj' : adjusted_demand (some wb') = base_demand.map (fun d => d * temp_factor t') := by
      simp [adjusted_demand, ht']
    rw [hadj, hadj', getD_map_mul, getD_map_mul]
    exact mul_le_mul_of_nonneg_left (temp_factor_mono htt) (hnn i)

/-- C9 witness: the scaling identity at the concrete reading t = 30. -/
theorem c9_demand_forecast_scaling_witness :
    adjusted_demand (some ⟨none, some 30, none, none, none⟩) =
      base_demand.map (fun d => d * max 1 (1 + ((30 : ℚ) - 25) * (2 / 100))) :=
  (c9_demand_forecast_scaling ⟨none, some 30, none, none, none⟩ 30 rfl).1

/-- C10: for every map-type string outside the five named layers, the
interactive-map operation still succeeds, displaying exactly the base
map (its tile layers and layer control) with no overlay elements and no
layer note, rather than failing or falling back to a named layer. -/
theorem c10_unknown_map_type :
    ∀ (lat lon : ℚ) (w : Option WeatherBundle) (a : Option AirQualityBundle)
      (mt : String),
      mt ∉ (["overview", "heat_island", "water_monitoring", "air_quality",
             "urban_growth"] : List String) →
      render_interactive_map lat lon w a mt =
        (MapUtils.create_base_map lat lon 11, []) := by
  intro lat lon w a mt hmt
  simp only [List.mem_cons, List.not_mem_nil, or_false, not_or] at hmt
  obtain ⟨h1, h2, h3, h4, h5⟩ := hmt
  unfold render_interactive_map
  split_ifs
  rfl

/-- C10 witness: the unknown map type "satellite_view" yields the bare
base map. -/
theorem c10_unknown_map_type_witness :
    render_interactive_map 13 78 none none "satellite_view" =
      (MapUtils.create_base_map 13 78 11, []) :=
  c10_unknown_map_type 13 78 none none "satellite_view" (by decide)
